import Mathlib

/-!
Shallow embedding of the Veo Studio app (a browser UI driving a hosted
video-generation API) for verification of its specification.

Embedded modules:
* `services/geminiService` : `parseScript`, `generateVideo` (payload
  construction, submit / poll / fetch flow, modelled as an interpreter
  over an abstract remote environment that records an event trace);
* `App` : the top-level view-state machine and its handlers;
* `components/DirectorView` : the per-scene orchestration.

Remote calls, timers and browser APIs are modelled through an explicit
environment (`RemoteEnv`) and an event trace (`ApiEvent`), so that the
ordering claims (submit before poll before fetch, fixed 10 s delay, no
`URL.revokeObjectURL` call) become properties of the produced trace.
-/

namespace VeoStudio

/-- The vendor SDK's `Video` object; the code only reads its `uri`. -/
structure Video where
  uri : String
deriving Repr, DecidableEq

/-- An uploaded image: the base64 payload and the `file.type` string
(`""` models a missing MIME type, which is falsy in JS). -/
structure ImageFile where
  base64 : String
  fileType : String
deriving Repr, DecidableEq

/-- `GenerationMode` from `types.ts` (values as used by the components). -/
inductive GenerationMode
  | TEXT_TO_VIDEO
  | FRAMES_TO_VIDEO
  | REFERENCES_TO_VIDEO
  | EXTEND_VIDEO
  | DIRECTOR
deriving Repr, DecidableEq

/-- `GenerateVideoParams`: the argument record of `generateVideo`.
Model, aspect ratio and resolution are enum strings; absent JS fields
(`undefined`) are `none` / `[]` / `false`. -/
structure GenerateVideoParams where
  prompt : String
  model : String
  aspectRatio : String
  resolution : String
  mode : GenerationMode
  startFrame : Option ImageFile
  endFrame : Option ImageFile
  referenceImages : List ImageFile
  inputVideoObject : Option Video
  isLooping : Bool
deriving Repr, DecidableEq

/-- `{imageBytes, mimeType}` as placed into the request payload. -/
structure FramePayload where
  imageBytes : String
  mimeType : String
deriving Repr, DecidableEq

/-- One entry of `config.referenceImages`. -/
structure RefImagePayload where
  image : FramePayload
  referenceType : String
deriving Repr, DecidableEq

/-- The `config` object of the request payload.  Fields the code only
sets conditionally are `Option` (absent = `none`). -/
structure ConfigPayload where
  numberOfVideos : Nat
  resolution : String
  aspectRatio : Option String
  lastFrame : Option FramePayload
  referenceImages : Option (List RefImagePayload)
deriving Repr, DecidableEq

/-- The full `generateVideoPayload` object. -/
structure Payload where
  model : String
  config : ConfigPayload
  prompt : Option String
  image : Option FramePayload
  video : Option Video
deriving Repr, DecidableEq

/-- `file.type || 'image/png'` : the JS `||` falls back on the empty
(falsy) string. -/
def mimeOf (f : ImageFile) : String :=
  if f.fileType = "" then "image/png" else f.fileType

/-- `{imageBytes: f.base64, mimeType: f.file.type || 'image/png'}`. -/
def framePayloadOf (f : ImageFile) : FramePayload :=
  { imageBytes := f.base64, mimeType := mimeOf f }

/-- Payload construction part of `generateVideo` (everything before the
`ai.models.generateVideos` call).  `Except.error` models the `throw` on
the extend-without-input path. -/
def buildPayload (params : GenerateVideoParams) : Except String Payload :=
  let config : ConfigPayload :=
    { numberOfVideos := 1
      resolution := params.resolution
      aspectRatio :=
        if params.mode ≠ GenerationMode.EXTEND_VIDEO then some params.aspectRatio else none
      lastFrame := none
      referenceImages := none }
  let payload : Payload :=
    { model := params.model
      config := config
      prompt := if params.prompt = "" then none else some params.prompt
      image := params.startFrame.map framePayloadOf
      video := none }
  match params.mode with
  | GenerationMode.FRAMES_TO_VIDEO =>
    let finalEndFrame := if params.isLooping then params.startFrame else params.endFrame
    match finalEndFrame with
    | some f =>
      Except.ok { payload with
        config := { payload.config with lastFrame := some (framePayloadOf f) } }
    | none => Except.ok payload
  | GenerationMode.REFERENCES_TO_VIDEO =>
    let refs : List RefImagePayload :=
      params.referenceImages.map fun img =>
        { image := framePayloadOf img, referenceType := "ASSET" }
    if refs.length > 0 then
      Except.ok { payload with
        config := { payload.config with referenceImages := some refs } }
    else Except.ok payload
  | GenerationMode.EXTEND_VIDEO =>
    match params.inputVideoObject with
    | some v => Except.ok { payload with video := some v }
    | none => Except.error "An input video object is required to extend a video."
  | _ => Except.ok payload

/-- `operation.response.generatedVideos[i]` : the code reads `.video`. -/
structure GeneratedVideo where
  video : Video
deriving Repr, DecidableEq

/-- `operation.response`. -/
structure OpResponse where
  generatedVideos : List GeneratedVideo
deriving Repr, DecidableEq

/-- A long-running operation handle as observed by the client. -/
structure Operation where
  done : Bool
  response : Option OpResponse
deriving Repr, DecidableEq

/-- Observable external effects of the service code, in order. -/
inductive ApiEvent
  | submit (p : Payload)
  | sleep (ms : Nat)
  | poll
  | fetchMedia (url : String)
  | createObjectURL
  | revokeObjectURL
deriving Repr, DecidableEq

/-- The remote side and browser builtins, as an oracle: the operation
returned by `generateVideos`, the operation returned by the n-th
`getVideosOperation` call, the outcome of the media `fetch`, and the
values of `decodeURIComponent` / `URL.createObjectURL` / the API key. -/
structure RemoteEnv where
  submitResult : Operation
  pollResult : Nat → Operation
  fetchOk : Bool
  fetchStatus : Nat
  decodeURIComponent : String → String
  apiKey : String
  objectUrl : String

/-- The `while (!operation.done)` loop: sleep 10000 ms, then refresh the
operation.  `fuel` bounds the number of refreshes (the JS loop has no
bound; `none` models not having terminated within `fuel` polls).
`n` numbers the poll requests. -/
def pollLoop (env : RemoteEnv) : Nat → Operation → Nat → Option (Operation × List ApiEvent)
  | 0, op, _ => if op.done then some (op, []) else none
  | fuel + 1, op, n =>
    if op.done then some (op, [])
    else
      (pollLoop env fuel (env.pollResult n) (n + 1)).map fun r =>
        (r.1, ApiEvent.sleep 10000 :: ApiEvent.poll :: r.2)

/-- The `{objectUrl, blob, uri, video}` record `generateVideo` resolves
with (the blob itself is opaque and omitted). -/
structure GenResult where
  objectUrl : String
  uri : String
  video : Video
deriving Repr, DecidableEq

/-- `generateVideo` from `services/geminiService`: build the payload
(possibly throwing), submit, poll until done, then check the response,
fetch the media and create an object URL.  Returns the outcome together
with the trace of external effects; `none` = the poll loop did not
finish within `fuel` iterations. -/
def generateVideo (env : RemoteEnv) (fuel : Nat) (params : GenerateVideoParams) :
    Option (Except String GenResult × List ApiEvent) :=
  match buildPayload params with
  | Except.error msg => some (Except.error msg, [])
  | Except.ok payload =>
    match pollLoop env fuel env.submitResult 1 with
    | none => none
    | some (op, polls) =>
      let pre := ApiEvent.submit payload :: polls
      match op.response with
      | none => some (Except.error "Operation failed.", pre)
      | some resp =>
        match resp.generatedVideos with
        | [] => some (Except.error "No videos were generated.", pre)
        | firstVideo :: _ =>
          let videoObject := firstVideo.video
          let url := env.decodeURIComponent videoObject.uri
          let fetchedUrl := url ++ "&key=" ++ env.apiKey
          if env.fetchOk then
            some (Except.ok { objectUrl := env.objectUrl, uri := url, video := videoObject },
              pre ++ [ApiEvent.fetchMedia fetchedUrl, ApiEvent.createObjectURL])
          else
            some (Except.error ("Failed to fetch video: " ++ toString env.fetchStatus),
              pre ++ [ApiEvent.fetchMedia fetchedUrl])

/-- A `{title, prompt}` record of the script-analysis JSON response. -/
structure RawScene where
  title : String
  prompt : String
deriving Repr, DecidableEq

/-- Per-scene status in the storyboard (`'idle' | 'generating' | 'done' | 'error'`). -/
inductive SceneStatus
  | idle
  | generating
  | done
  | error
deriving Repr, DecidableEq

/-- `StoryboardScene` from `types.ts`, as constructed and updated by the code. -/
structure StoryboardScene where
  id : String
  title : String
  prompt : String
  videoUrl : Option String
  videoObject : Option Video
  status : SceneStatus
deriving Repr, DecidableEq

/-- `rawData.map((scene, index) => ...)` : a map that also passes the
element's index, starting at `n`. -/
def mapIdxFrom {α β : Type} (f : Nat → α → β) : Nat → List α → List β
  | _, [] => []
  | n, x :: xs => f n x :: mapIdxFrom f (n + 1) xs

/-- The scene record `parseScript` builds for the element at `index`. -/
def mkScene (index : Nat) (s : RawScene) : StoryboardScene :=
  { id := "scene-" ++ toString index
    title := s.title
    prompt := s.prompt
    videoUrl := none
    videoObject := none
    status := SceneStatus.idle }

/-- `parseScript`'s handling of the model response: `parsed` is the
outcome of `JSON.parse(response.text)` and the array access (`none` =
the `try` block threw); any failure becomes the fixed user-facing
message. -/
def parseScript (parsed : Option (List RawScene)) : Except String (List StoryboardScene) :=
  match parsed with
  | none => Except.error "Could not interpret the script. Please try a different description."
  | some rawData => Except.ok (mapIdxFrom mkScene 0 rawData)

/-- `AppState` from `types.ts`. -/
inductive AppState
  | IDLE
  | LOADING
  | SUCCESS
  | ERROR
  | DIRECTOR_READY
deriving Repr, DecidableEq

/-- The `App` component's state variables. -/
structure AppModel where
  appState : AppState
  videoUrl : Option String
  errorMessage : Option String
  lastConfig : Option GenerateVideoParams
  lastVideoObject : Option Video
  lastVideoBlobSet : Bool
  storyboardScenes : List StoryboardScene
  initialFormValues : Option GenerateVideoParams
deriving Repr, DecidableEq

/-- `handleGenerate`: set LOADING, clear the error, record the config,
await `generateVideo(params)` once, then commit SUCCESS or ERROR.  The
second component is the list of `generateVideo` invocations the handler
performs (in order, with their argument); `result` is what the single
awaited call produced (a thrown error is its message string). -/
def handleGenerate (m : AppModel) (params : GenerateVideoParams)
    (result : Except String GenResult) : AppModel × List GenerateVideoParams :=
  let m1 := { m with
    appState := AppState.LOADING
    errorMessage := none
    lastConfig := some params }
  match result with
  | Except.ok r =>
    ({ m1 with
        appState := AppState.SUCCESS
        videoUrl := some r.objectUrl
        lastVideoBlobSet := true
        lastVideoObject := some r.video }, [params])
  | Except.error msg =>
    ({ m1 with
        appState := AppState.ERROR
        errorMessage := some msg }, [params])

/-- `handleDirectorParse`: store the scenes and enter the director view. -/
def handleDirectorParse (m : AppModel) (scenes : List StoryboardScene) : AppModel :=
  { m with appState := AppState.DIRECTOR_READY, storyboardScenes := scenes }

/-- `handleNewVideo`: back to IDLE, dropping the video URL reference and
the storyboard.  The second component is the list of external effects
the handler performs (it performs none — in particular it never calls
`URL.revokeObjectURL`). -/
def handleNewVideo (m : AppModel) : AppModel × List ApiEvent :=
  ({ m with
      appState := AppState.IDLE
      videoUrl := none
      storyboardScenes := []
      initialFormValues := none }, [])

/-- The discrete events that drive `App`'s view state: a generate
submission (`PromptForm.onGenerate`, or the SUCCESS view's Retry with
`lastConfig`), the settled result of the awaited `generateVideo` call, a
successful script parse (`PromptForm.onDirectorParse`), the
new-video/new-project/try-again action (`handleNewVideo`), and a
per-scene action inside the director view. -/
inductive AppEvent
  | genSubmit (params : GenerateVideoParams)
  | genResult (r : Except String GenResult)
  | directorParse (scenes : List StoryboardScene)
  | newVideo
  | sceneAction (index : Nat)

/-- Which events the rendered UI makes possible in each state: IDLE
renders `PromptForm` (submit or director parse); LOADING renders only
the spinner, so the only next event is the pending call settling;
SUCCESS renders Retry and New Video; ERROR renders only Try Again
(wired to `handleNewVideo`); DIRECTOR_READY renders New Project and the
per-scene buttons. -/
def enabled : AppState → AppEvent → Bool
  | AppState.IDLE, AppEvent.genSubmit _ => true
  | AppState.IDLE, AppEvent.directorParse _ => true
  | AppState.LOADING, AppEvent.genResult _ => true
  | AppState.SUCCESS, AppEvent.genSubmit _ => true
  | AppState.SUCCESS, AppEvent.newVideo => true
  | AppState.ERROR, AppEvent.newVideo => true
  | AppState.DIRECTOR_READY, AppEvent.newVideo => true
  | AppState.DIRECTOR_READY, AppEvent.sceneAction _ => true
  | _, _ => false

/-- The resulting view state of each handler (`setAppState` calls in
`App`; per-scene actions live in `DirectorView`'s local state and leave
`appState` unchanged). -/
def step (s : AppState) : AppEvent → AppState
  | AppEvent.genSubmit _ => AppState.LOADING
  | AppEvent.genResult (Except.ok _) => AppState.SUCCESS
  | AppEvent.genResult (Except.error _) => AppState.ERROR
  | AppEvent.directorParse _ => AppState.DIRECTOR_READY
  | AppEvent.newVideo => AppState.IDLE
  | AppEvent.sceneAction _ => s

/-- `prev.map((s, i) => i === index ? f(s) : s)`. -/
def updateSceneAt (scenes : List StoryboardScene) (index : Nat)
    (f : StoryboardScene → StoryboardScene) : List StoryboardScene :=
  mapIdxFrom (fun i s => if i = index then f s else s) 0 scenes

/-- `DirectorView`'s state: the scene list and the global error banner. -/
structure DirectorState where
  scenes : List StoryboardScene
  globalError : Option String
deriving Repr, DecidableEq

/-- The `GenerateVideoParams` record `handleGenerateScene` passes to
`generateVideo` (fields the JS object literal omits are absent). -/
def sceneParams (model aspectRatio resolution prompt : String) : GenerateVideoParams :=
  { prompt := prompt
    model := model
    aspectRatio := aspectRatio
    resolution := resolution
    mode := GenerationMode.TEXT_TO_VIDEO
    startFrame := none
    endFrame := none
    referenceImages := []
    inputVideoObject := none
    isLooping := false }

/-- `DirectorView.handleGenerateScene(index)`: mark the scene
generating, clear the banner, call `generateVideo` once with that
scene's prompt, then mark it done (with the video) or error.  `result`
is what the awaited call produced; the second component lists the
`generateVideo` invocations performed.  When `index` is out of range,
`scenes[index]` is `undefined` and reading `.prompt` throws inside the
`try` before `generateVideo` runs, landing in the `catch`. -/
def handleGenerateScene (model aspectRatio resolution : String)
    (st : DirectorState) (index : Nat) (result : Except String GenResult) :
    DirectorState × List GenerateVideoParams :=
  let marked := updateSceneAt st.scenes index fun s => { s with status := SceneStatus.generating }
  match st.scenes.get? index with
  | none =>
    ({ scenes := updateSceneAt marked index fun s => { s with status := SceneStatus.error }
       globalError := some ("Failed to generate Scene " ++ toString (index + 1)) }, [])
  | some scene =>
    let params := sceneParams model aspectRatio resolution scene.prompt
    match result with
    | Except.ok r =>
      ({ scenes := updateSceneAt marked index fun s =>
            { s with
                status := SceneStatus.done
                videoUrl := some r.objectUrl
                videoObject := some r.video }
         globalError := none }, [params])
    | Except.error _ =>
      ({ scenes := updateSceneAt marked index fun s => { s with status := SceneStatus.error }
         globalError := some ("Failed to generate Scene " ++ toString (index + 1)) }, [params])

/-! ### Helper lemmas about the poll loop and its trace -/

/-- The events of `k` iterations of the poll loop. -/
def pollEvents : Nat → List ApiEvent
  | 0 => []
  | k + 1 => ApiEvent.sleep 10000 :: ApiEvent.poll :: pollEvents k

/-- Checks that every `poll` in a trace is immediately preceded by a
`sleep 10000`, and every `sleep` is a 10000 ms one immediately followed
by a `poll` (the fixed-interval discipline). -/
def fixedIntervalPolls : List ApiEvent → Bool
  | [] => true
  | ApiEvent.sleep ms :: ApiEvent.poll :: rest => (ms == 10000) && fixedIntervalPolls rest
  | ApiEvent.sleep _ :: _ => false
  | ApiEvent.poll :: _ => false
  | _ :: rest => fixedIntervalPolls rest

theorem pollLoop_shape (env : RemoteEnv) :
    ∀ (fuel : Nat) (op : Operation) (n : Nat) (op' : Operation) (tr : List ApiEvent),
      pollLoop env fuel op n = some (op', tr) →
      op'.done = true ∧ ∃ k, tr = pollEvents k := by
  intro fuel
  induction fuel with
  | zero =>
    intro op n op' tr h
    simp only [pollLoop] at h
    split at h
    · rename_i hdone
      cases h
      exact ⟨hdone, 0, rfl⟩
    · exact absurd h (by simp)
  | succ fuel ih =>
    intro op n op' tr h
    simp only [pollLoop] at h
    split at h
    · rename_i hdone
      cases h
      exact ⟨hdone, 0, rfl⟩
    · rw [Option.map_eq_some'] at h
      obtain ⟨⟨op₁, tr₁⟩, hrec, heq⟩ := h
      obtain ⟨hdone, k, hk⟩ := ih (env.pollResult n) (n + 1) op₁ tr₁ hrec
      cases heq
      exact ⟨hdone, k + 1, by rw [hk]; rfl⟩

theorem sleep_mem_pollEvents :
    ∀ (k ms : Nat), ApiEvent.sleep ms ∈ pollEvents k → ms = 10000 := by
  intro k
  induction k with
  | zero => intro ms h; simp [pollEvents] at h
  | succ k ih =>
    intro ms h
    simp only [pollEvents, List.mem_cons] at h
    rcases h with h | h | h
    · cases h; rfl
    · cases h
    · exact ih ms h

theorem fetch_not_mem_pollEvents :
    ∀ (k : Nat) (u : String), ApiEvent.fetchMedia u ∉ pollEvents k := by
  intro k
  induction k with
  | zero => intro u h; simp [pollEvents] at h
  | succ k ih =>
    intro u h
    simp only [pollEvents, List.mem_cons] at h
    rcases h with h | h | h
    · cases h
    · cases h
    · exact ih u h

theorem revoke_not_mem_pollEvents :
    ∀ (k : Nat), ApiEvent.revokeObjectURL ∉ pollEvents k := by
  intro k
  induction k with
  | zero => intro h; simp [pollEvents] at h
  | succ k ih =>
    intro h
    simp only [pollEvents, List.mem_cons] at h
    rcases h with h | h | h
    · cases h
    · cases h
    · exact ih h

theorem fixedIntervalPolls_pollEvents_append :
    ∀ (k : Nat) (tail : List ApiEvent),
      fixedIntervalPolls (pollEvents k ++ tail) = fixedIntervalPolls tail := by
  intro k
  induction k with
  | zero => intro tail; rfl
  | succ k ih =>
    intro tail
    show (10000 == 10000 && fixedIntervalPolls (pollEvents k ++ tail)) = fixedIntervalPolls tail
    rw [ih]
    simp

/-- Structure of every trace `generateVideo` can produce: either the
payload build threw and nothing was emitted, or the trace is a single
submit, then `k` sleep/poll pairs ending with a done operation, then at
most a fetch and an object-URL creation. -/
theorem generateVideo_trace_shape (env : RemoteEnv) (fuel : Nat)
    (params : GenerateVideoParams) (res : Except String GenResult) (tr : List ApiEvent)
    (h : generateVideo env fuel params = some (res, tr)) :
    (tr = [] ∧ ∃ msg, buildPayload params = Except.error msg ∧ res = Except.error msg) ∨
    ∃ payload op k tail,
      buildPayload params = Except.ok payload ∧
      pollLoop env fuel env.submitResult 1 = some (op, pollEvents k) ∧
      op.done = true ∧
      tr = ApiEvent.submit payload :: (pollEvents k ++ tail) ∧
      (tail = [] ∨ ∃ u, tail = [ApiEvent.fetchMedia u] ∨
        tail = [ApiEvent.fetchMedia u, ApiEvent.createObjectURL]) := by
  unfold generateVideo at h
  cases hb : buildPayload params with
  | error msg =>
    rw [hb] at h
    cases h
    exact Or.inl ⟨rfl, msg, rfl, rfl⟩
  | ok payload =>
    rw [hb] at h
    cases hp : pollLoop env fuel env.submitResult 1 with
    | none => rw [hp] at h; cases h
    | some pr =>
      obtain ⟨op, polls⟩ := pr
      obtain ⟨hdone, k, hk⟩ := pollLoop_shape env fuel env.submitResult 1 op polls hp
      subst hk
      rw [hp] at h
      obtain ⟨opDone, opResp⟩ := op
      refine Or.inr ⟨payload, ⟨opDone, opResp⟩, k, ?_⟩
      cases opResp with
      | none =>
        cases h
        exact ⟨[], rfl, rfl, hdone, by simp, Or.inl rfl⟩
      | some resp =>
        obtain ⟨videos⟩ := resp
        cases videos with
        | nil =>
          cases h
          exact ⟨[], rfl, rfl, hdone, by simp, Or.inl rfl⟩
        | cons firstVideo rest =>
          dsimp only at h
          by_cases hf : env.fetchOk = true
          · rw [if_pos hf] at h
            cases h
            refine ⟨[ApiEvent.fetchMedia
                (env.decodeURIComponent firstVideo.video.uri ++ "&key=" ++ env.apiKey),
                ApiEvent.createObjectURL], rfl, rfl, hdone, by simp, Or.inr ⟨_, Or.inr rfl⟩⟩
          · rw [if_neg hf] at h
            cases h
            refine ⟨[ApiEvent.fetchMedia
                (env.decodeURIComponent firstVideo.video.uri ++ "&key=" ++ env.apiKey)],
                rfl, rfl, hdone, by simp, Or.inr ⟨_, Or.inl rfl⟩⟩

/-! ### Helper lemmas about indexed list updates -/

theorem mapIdxFrom_get? {α β : Type} (f : Nat → α → β) :
    ∀ (xs : List α) (n i : Nat), (mapIdxFrom f n xs).get? i = (xs.get? i).map (f (n + i)) := by
  intro xs
  induction xs with
  | nil => intro n i; simp [mapIdxFrom]
  | cons x xs ih =>
    intro n i
    cases i with
    | zero => simp [mapIdxFrom]
    | succ i =>
      have h1 : (mapIdxFrom f n (x :: xs)).get? (i + 1) = (mapIdxFrom f (n + 1) xs).get? i := rfl
      rw [h1, ih (n + 1) i]
      have h2 : n + 1 + i = n + (i + 1) := by omega
      rw [h2]
      rfl

theorem updateSceneAt_get? (scenes : List StoryboardScene) (index : Nat)
    (f : StoryboardScene → StoryboardScene) (j : Nat) :
    (updateSceneAt scenes index f).get? j =
      if j = index then (scenes.get? j).map f else scenes.get? j := by
  unfold updateSceneAt
  rw [mapIdxFrom_get?]
  simp only [Nat.zero_add]
  by_cases hj : j = index
  · simp [hj]
  · simp only [hj, if_false]
    cases scenes.get? j <;> simp [hj]

/-- The per-scene handler calls `generateVideo` exactly once (with that
scene's prompt) and its state updates touch no other scene. -/
theorem handleGenerateScene_frame (model ar res : String) (st : DirectorState)
    (index : Nat) (scene : StoryboardScene) (result : Except String GenResult)
    (h : st.scenes.get? index = some scene) :
    (handleGenerateScene model ar res st index result).2
        = [sceneParams model ar res scene.prompt] ∧
    (∀ j, j ≠ index →
      (handleGenerateScene model ar res st index result).1.scenes.get? j
        = st.scenes.get? j) ∧
    ((∃ r, result = Except.ok r ∧
      (handleGenerateScene model ar res st index result).1.scenes.get? index =
        some { scene with
          status := SceneStatus.done
          videoUrl := some r.objectUrl
          videoObject := some r.video }) ∨
     (∃ msg, result = Except.error msg ∧
      (handleGenerateScene model ar res st index result).1.scenes.get? index =
        some { scene with status := SceneStatus.error })) := by
  unfold handleGenerateScene
  rw [h]
  cases result with
  | ok r =>
    refine ⟨rfl, ?_, Or.inl ⟨r, rfl, ?_⟩⟩
    · intro j hj
      rw [updateSceneAt_get?, updateSceneAt_get?, if_neg hj, if_neg hj]
    · rw [updateSceneAt_get?, if_pos rfl, updateSceneAt_get?, if_pos rfl, h]
      rfl
  | error msg =>
    refine ⟨rfl, ?_, Or.inr ⟨msg, rfl, ?_⟩⟩
    · intro j hj
      rw [updateSceneAt_get?, updateSceneAt_get?, if_neg hj, if_neg hj]
    · rw [updateSceneAt_get?, if_pos rfl, updateSceneAt_get?, if_pos rfl, h]
      rfl

/-! ### Concrete fixtures used by the witnesses -/

def cVideo : Video := { uri := "http://v" }

def cPendingOp : Operation := { done := false, response := none }

def cDoneOp : Operation :=
  { done := true, response := some { generatedVideos := [{ video := cVideo }] } }

def cEnv : RemoteEnv :=
  { submitResult := cPendingOp
    pollResult := fun _ => cDoneOp
    fetchOk := true
    fetchStatus := 200
    decodeURIComponent := id
    apiKey := "k"
    objectUrl := "blob:1" }

def cParams : GenerateVideoParams :=
  { prompt := "a cat"
    model := "veo-3.0-fast-generate-001"
    aspectRatio := "16:9"
    resolution := "720p"
    mode := GenerationMode.TEXT_TO_VIDEO
    startFrame := none
    endFrame := none
    referenceImages := []
    inputVideoObject := none
    isLooping := false }

def cPayload : Payload :=
  { model := "veo-3.0-fast-generate-001"
    config :=
      { numberOfVideos := 1
        resolution := "720p"
        aspectRatio := some "16:9"
        lastFrame := none
        referenceImages := none }
    prompt := some "a cat"
    image := none
    video := none }

def cResult : GenResult := { objectUrl := "blob:1", uri := "http://v", video := cVideo }

def cTrace : List ApiEvent :=
  [ApiEvent.submit cPayload, ApiEvent.sleep 10000, ApiEvent.poll,
   ApiEvent.fetchMedia "http://v&key=k", ApiEvent.createObjectURL]

def cRaw : List RawScene :=
  [{ title := "Opening", prompt := "wide shot" }, { title := "Chase", prompt := "running" }]

def cScenes : List StoryboardScene := mapIdxFrom mkScene 0 cRaw

def cScene0 : StoryboardScene := mkScene 0 { title := "Opening", prompt := "wide shot" }

def cScene1 : StoryboardScene := mkScene 1 { title := "Chase", prompt := "running" }

def cDirSt : DirectorState := { scenes := cScenes, globalError := none }

def cIdleModel : AppModel :=
  { appState := AppState.IDLE
    videoUrl := none
    errorMessage := none
    lastConfig := none
    lastVideoObject := none
    lastVideoBlobSet := false
    storyboardScenes := []
    initialFormValues := none }

def cSuccessModel : AppModel := (handleGenerate cIdleModel cParams (Except.ok cResult)).1

def cFrame : ImageFile := { base64 := "QUJD", fileType := "image/jpeg" }

def cEndFrame : ImageFile := { base64 := "WFla", fileType := "" }

def cFramesParams : GenerateVideoParams :=
  { cParams with
      mode := GenerationMode.FRAMES_TO_VIDEO
      isLooping := true
      startFrame := some cFrame
      endFrame := some cEndFrame }

def cExtendParams : GenerateVideoParams :=
  { cParams with mode := GenerationMode.EXTEND_VIDEO, inputVideoObject := none }

/-! ### The claims -/

/-- C1: for every submitted generation request, `generateVideo` first
submits the job, then polls the remote operation until it reports done,
and only after that fetches the media: in every produced trace that
contains a fetch, the trace is the submit, then the sleep/poll pairs of
a loop that ended on a done operation, then the fetch (followed at most
by the object-URL creation) — the media is never fetched before the
operation is done. -/
theorem generateVideo_fetch_only_after_done (env : RemoteEnv) (fuel : Nat)
    (params : GenerateVideoParams) (res : Except String GenResult) (tr : List ApiEvent)
    (h : generateVideo env fuel params = some (res, tr)) (u : String)
    (hu : ApiEvent.fetchMedia u ∈ tr) :
    ∃ payload k rest,
      tr = ApiEvent.submit payload :: (pollEvents k ++ (ApiEvent.fetchMedia u :: rest)) ∧
      (∀ e ∈ rest, e = ApiEvent.createObjectURL) ∧
      ∃ op, pollLoop env fuel env.submitResult 1 = some (op, pollEvents k) ∧
        op.done = true := by
  rcases generateVideo_trace_shape env fuel params res tr h with
    ⟨htr, _⟩ | ⟨payload, op, k, tail, _, hp, hdone, htr, htail⟩
  · subst htr; cases hu
  · subst htr
    rcases htail with rfl | ⟨u', h1 | h1⟩
    · exfalso
      rcases List.mem_cons.mp hu with h1 | h1
      · cases h1
      · rw [List.append_nil] at h1
        exact fetch_not_mem_pollEvents k u h1
    · subst h1
      have hu' : u = u' := by
        rcases List.mem_cons.mp hu with h1 | h1
        · cases h1
        · rcases List.mem_append.mp h1 with h2 | h2
          · exact absurd h2 (fetch_not_mem_pollEvents k u)
          · have h3 := List.mem_singleton.mp h2
            injection h3
      subst hu'
      exact ⟨payload, k, [], rfl, by simp, op, hp, hdone⟩
    · subst h1
      have hu' : u = u' := by
        rcases List.mem_cons.mp hu with h1 | h1
        · cases h1
        · rcases List.mem_append.mp h1 with h2 | h2
          · exact absurd h2 (fetch_not_mem_pollEvents k u)
          · rcases List.mem_cons.mp h2 with h3 | h3
            · injection h3
            · cases List.mem_singleton.mp h3
      subst hu'
      exact ⟨payload, k, [ApiEvent.createObjectURL], rfl, by simp, op, hp, hdone⟩

/-- C1 witness: a concrete run (one poll, then success). -/
theorem generateVideo_fetch_only_after_done_witness :
    generateVideo cEnv 1 cParams = some (Except.ok cResult, cTrace) ∧
    ApiEvent.fetchMedia "http://v&key=k" ∈ cTrace ∧
    ∃ payload k rest,
      cTrace = ApiEvent.submit payload ::
        (pollEvents k ++ (ApiEvent.fetchMedia "http://v&key=k" :: rest)) ∧
      (∀ e ∈ rest, e = ApiEvent.createObjectURL) ∧
      ∃ op, pollLoop cEnv 1 cEnv.submitResult 1 = some (op, pollEvents k) ∧
        op.done = true :=
  ⟨rfl, by decide,
    generateVideo_fetch_only_after_done cEnv 1 cParams (Except.ok cResult) cTrace rfl
      "http://v&key=k" (by decide)⟩

/-- C2: the poll loop is fixed-interval: in every produced trace, each
poll request is immediately preceded by a `sleep 10000` and every sleep
in the trace is exactly 10000 ms, for every iteration. -/
theorem generateVideo_fixed_interval_polling (env : RemoteEnv) (fuel : Nat)
    (params : GenerateVideoParams) (res : Except String GenResult) (tr : List ApiEvent)
    (h : generateVideo env fuel params = some (res, tr)) :
    fixedIntervalPolls tr = true ∧
    ∀ ms, ApiEvent.sleep ms ∈ tr → ms = 10000 := by
  rcases generateVideo_trace_shape env fuel params res tr h with
    ⟨htr, _⟩ | ⟨payload, op, k, tail, _, hp, hdone, htr, htail⟩
  · subst htr
    exact ⟨rfl, fun ms h' => absurd h' (List.not_mem_nil _)⟩
  · subst htr
    constructor
    · have h0 : fixedIntervalPolls (ApiEvent.submit payload :: (pollEvents k ++ tail))
          = fixedIntervalPolls (pollEvents k ++ tail) := rfl
      rw [h0, fixedIntervalPolls_pollEvents_append]
      rcases htail with rfl | ⟨u, rfl | rfl⟩ <;> rfl
    · intro ms hm
      rcases List.mem_cons.mp hm with h1 | h1
      · cases h1
      · rcases List.mem_append.mp h1 with h2 | h2
        · exact sleep_mem_pollEvents k ms h2
        · rcases htail with rfl | ⟨u, rfl | rfl⟩
          · cases h2
          · cases List.mem_singleton.mp h2
          · rcases List.mem_cons.mp h2 with h3 | h3
            · cases h3
            · cases List.mem_singleton.mp h3

/-- C2 witness: the same concrete run. -/
theorem generateVideo_fixed_interval_polling_witness :
    generateVideo cEnv 1 cParams = some (Except.ok cResult, cTrace) ∧
    (fixedIntervalPolls cTrace = true ∧
      ∀ ms, ApiEvent.sleep ms ∈ cTrace → ms = 10000) :=
  ⟨rfl, generateVideo_fixed_interval_polling cEnv 1 cParams (Except.ok cResult) cTrace rfl⟩

/-- C3: every error thrown by the generation call is caught by
`handleGenerate` and becomes the single `errorMessage` string together
with the ERROR state, and `parseScript` turns any JSON-parse failure
into the single fixed user-facing message. -/
theorem errors_surface_as_single_message (m : AppModel) (params : GenerateVideoParams)
    (msg : String) :
    (handleGenerate m params (Except.error msg)).1.appState = AppState.ERROR ∧
    (handleGenerate m params (Except.error msg)).1.errorMessage = some msg ∧
    parseScript none =
      Except.error "Could not interpret the script. Please try a different description." :=
  ⟨rfl, rfl, rfl⟩

/-- C4: no automatic retry: a submission runs `generateVideo` exactly
once; in the ERROR state the only available action is the Try Again
button, which resets to IDLE; and the director view's per-scene Retry
re-invokes generation once for that scene only, leaving all other
scenes untouched. -/
theorem no_automatic_retry (m : AppModel) (p : GenerateVideoParams)
    (r : Except String GenResult) (e : AppEvent)
    (he : enabled AppState.ERROR e = true)
    (mdl ar rs : String) (st : DirectorState) (index : Nat)
    (scene : StoryboardScene) (result : Except String GenResult)
    (hs : st.scenes.get? index = some scene) :
    (handleGenerate m p r).2 = [p] ∧
    e = AppEvent.newVideo ∧
    step AppState.ERROR e = AppState.IDLE ∧
    (handleGenerateScene mdl ar rs st index result).2
      = [sceneParams mdl ar rs scene.prompt] ∧
    (∀ j, j ≠ index →
      (handleGenerateScene mdl ar rs st index result).1.scenes.get? j
        = st.scenes.get? j) := by
  obtain ⟨hcalls, hframe, _⟩ := handleGenerateScene_frame mdl ar rs st index scene result hs
  have he' : e = AppEvent.newVideo := by
    rcases e with p' | r' | sc | _ | i
    · simp [enabled] at he
    · simp [enabled] at he
    · simp [enabled] at he
    · rfl
    · simp [enabled] at he
  subst he'
  refine ⟨?_, rfl, rfl, hcalls, hframe⟩
  cases r <;> rfl

/-- C4 witness: a concrete error-state event and a concrete scene retry. -/
theorem no_automatic_retry_witness :
    enabled AppState.ERROR AppEvent.newVideo = true ∧
    cDirSt.scenes.get? 0 = some cScene0 ∧
    ((handleGenerate cIdleModel cParams (Except.error "boom")).2 = [cParams] ∧
     AppEvent.newVideo = AppEvent.newVideo ∧
     step AppState.ERROR AppEvent.newVideo = AppState.IDLE ∧
     (handleGenerateScene "veo-3.0-fast-generate-001" "16:9" "720p" cDirSt 0
        (Except.ok cResult)).2
       = [sceneParams "veo-3.0-fast-generate-001" "16:9" "720p" cScene0.prompt] ∧
     (∀ j, j ≠ 0 →
       (handleGenerateScene "veo-3.0-fast-generate-001" "16:9" "720p" cDirSt 0
          (Except.ok cResult)).1.scenes.get? j = cDirSt.scenes.get? j)) :=
  ⟨rfl, rfl,
    no_automatic_retry cIdleModel cParams (Except.error "boom") AppEvent.newVideo rfl
      "veo-3.0-fast-generate-001" "16:9" "720p" cDirSt 0 cScene0 (Except.ok cResult) rfl⟩

/-- C5: the view-state machine: LOADING is entered only by a generate
submission; SUCCESS and ERROR arise only from LOADING as the two
outcomes of the awaited call; DIRECTOR_READY is entered only by a
successful script parse; and from SUCCESS, ERROR or DIRECTOR_READY the
only transition back is to IDLE via the new-video/new-project action. -/
theorem app_state_machine (s : AppState) (e : AppEvent) (he : enabled s e = true) :
    (step s e = AppState.LOADING → ∃ p, e = AppEvent.genSubmit p) ∧
    (step s e = AppState.SUCCESS →
      s = AppState.LOADING ∧ ∃ r, e = AppEvent.genResult (Except.ok r)) ∧
    (step s e = AppState.ERROR →
      s = AppState.LOADING ∧ ∃ msg, e = AppEvent.genResult (Except.error msg)) ∧
    (step s e = AppState.DIRECTOR_READY → s ≠ AppState.DIRECTOR_READY →
      ∃ sc, e = AppEvent.directorParse sc) ∧
    ((s = AppState.SUCCESS ∨ s = AppState.ERROR ∨ s = AppState.DIRECTOR_READY) →
      step s e = AppState.IDLE → e = AppEvent.newVideo) := by
  rcases e with p | r | sc | _ | i
  · cases s <;> simp_all [enabled, step]
  · cases r <;> cases s <;> simp_all [enabled, step]
  · cases s <;> simp_all [enabled, step]
  · cases s <;> simp_all [enabled, step]
  · cases s <;> simp_all [enabled, step]

/-- C5 witness: the pending call settling successfully while LOADING. -/
theorem app_state_machine_witness :
    enabled AppState.LOADING (AppEvent.genResult (Except.ok cResult)) = true ∧
    ((step AppState.LOADING (AppEvent.genResult (Except.ok cResult)) = AppState.LOADING →
        ∃ p, AppEvent.genResult (Except.ok cResult) = AppEvent.genSubmit p) ∧
     (step AppState.LOADING (AppEvent.genResult (Except.ok cResult)) = AppState.SUCCESS →
        AppState.LOADING = AppState.LOADING ∧
        ∃ r, AppEvent.genResult (Except.ok cResult) = AppEvent.genResult (Except.ok r)) ∧
     (step AppState.LOADING (AppEvent.genResult (Except.ok cResult)) = AppState.ERROR →
        AppState.LOADING = AppState.LOADING ∧
        ∃ msg, AppEvent.genResult (Except.ok cResult) = AppEvent.genResult (Except.error msg)) ∧
     (step AppState.LOADING (AppEvent.genResult (Except.ok cResult)) = AppState.DIRECTOR_READY →
        AppState.LOADING ≠ AppState.DIRECTOR_READY →
        ∃ sc, AppEvent.genResult (Except.ok cResult) = AppEvent.directorParse sc) ∧
     ((AppState.LOADING = AppState.SUCCESS ∨ AppState.LOADING = AppState.ERROR ∨
         AppState.LOADING = AppState.DIRECTOR_READY) →
        step AppState.LOADING (AppEvent.genResult (Except.ok cResult)) = AppState.IDLE →
        AppEvent.genResult (Except.ok cResult) = AppEvent.newVideo)) :=
  ⟨rfl, app_state_machine AppState.LOADING (AppEvent.genResult (Except.ok cResult)) rfl⟩

/-- C6: one Produce Scene action issues exactly one `generateVideo`
call, with that scene's prompt, and the resulting update (done with the
video on success, error on failure) changes only the scene at that
index. -/
theorem director_one_generation_per_scene (mdl ar rs : String) (st : DirectorState)
    (index : Nat) (scene : StoryboardScene) (result : Except String GenResult)
    (h : st.scenes.get? index = some scene) :
    (handleGenerateScene mdl ar rs st index result).2
      = [sceneParams mdl ar rs scene.prompt] ∧
    (∀ j, j ≠ index →
      (handleGenerateScene mdl ar rs st index result).1.scenes.get? j
        = st.scenes.get? j) ∧
    ((∃ r, result = Except.ok r ∧
      (handleGenerateScene mdl ar rs st index result).1.scenes.get? index =
        some { scene with
          status := SceneStatus.done
          videoUrl := some r.objectUrl
          videoObject := some r.video }) ∨
     (∃ msg, result = Except.error msg ∧
      (handleGenerateScene mdl ar rs st index result).1.scenes.get? index =
        some { scene with status := SceneStatus.error })) :=
  handleGenerateScene_frame mdl ar rs st index scene result h

/-- C6 witness: producing the second scene of a concrete storyboard. -/
theorem director_one_generation_per_scene_witness :
    cDirSt.scenes.get? 1 = some cScene1 ∧
    ((handleGenerateScene "veo-2.0" "9:16" "1080p" cDirSt 1 (Except.error "quota")).2
      = [sceneParams "veo-2.0" "9:16" "1080p" cScene1.prompt] ∧
    (∀ j, j ≠ 1 →
      (handleGenerateScene "veo-2.0" "9:16" "1080p" cDirSt 1 (Except.error "quota")).1.scenes.get? j
        = cDirSt.scenes.get? j) ∧
    ((∃ r, Except.error (α := GenResult) "quota" = Except.ok r ∧
      (handleGenerateScene "veo-2.0" "9:16" "1080p" cDirSt 1 (Except.error "quota")).1.scenes.get? 1 =
        some { cScene1 with
          status := SceneStatus.done
          videoUrl := some r.objectUrl
          videoObject := some r.video }) ∨
     (∃ msg, Except.error (α := GenResult) "quota" = Except.error msg ∧
      (handleGenerateScene "veo-2.0" "9:16" "1080p" cDirSt 1 (Except.error "quota")).1.scenes.get? 1 =
        some { cScene1 with status := SceneStatus.error }))) :=
  ⟨rfl, director_one_generation_per_scene "veo-2.0" "9:16" "1080p" cDirSt 1 cScene1
    (Except.error "quota") rfl⟩

/-- C7 counterexample: a complete successful run followed by the
new-video teardown creates an object URL but never emits a
`URL.revokeObjectURL` call — the temporary object URL is not released
by the app. -/
theorem objectURL_release_counterexample :
    generateVideo cEnv 1 cParams = some (Except.ok cResult, cTrace) ∧
    ApiEvent.createObjectURL ∈ cTrace ∧
    ApiEvent.revokeObjectURL ∉ cTrace ∧
    (handleNewVideo cSuccessModel).2 = [] ∧
    (handleNewVideo cSuccessModel).1.videoUrl = none :=
  ⟨rfl, by decide, by decide, rfl, rfl⟩

/-- C7 (amended): the app never calls `URL.revokeObjectURL`: no trace
`generateVideo` produces contains a revoke event, and the new-video
teardown performs no external effect — it only drops the reference by
resetting `videoUrl` to null. -/
theorem objectURL_never_revoked (env : RemoteEnv) (fuel : Nat)
    (params : GenerateVideoParams) (res : Except String GenResult) (tr : List ApiEvent)
    (h : generateVideo env fuel params = some (res, tr)) :
    ApiEvent.revokeObjectURL ∉ tr ∧
    ∀ m : AppModel, (handleNewVideo m).2 = [] ∧ (handleNewVideo m).1.videoUrl = none := by
  refine ⟨?_, fun m => ⟨rfl, rfl⟩⟩
  rcases generateVideo_trace_shape env fuel params res tr h with
    ⟨htr, _⟩ | ⟨payload, op, k, tail, _, hp, hdone, htr, htail⟩
  · subst htr; exact List.not_mem_nil _
  · subst htr
    intro hm
    rcases List.mem_cons.mp hm with h1 | h1
    · cases h1
    · rcases List.mem_append.mp h1 with h2 | h2
      · exact revoke_not_mem_pollEvents k h2
      · rcases htail with rfl | ⟨u, rfl | rfl⟩
        · cases h2
        · cases List.mem_singleton.mp h2
        · rcases List.mem_cons.mp h2 with h3 | h3
          · cases h3
          · cases List.mem_singleton.mp h3

/-- C7 (amended) witness: the same concrete run. -/
theorem objectURL_never_revoked_witness :
    generateVideo cEnv 1 cParams = some (Except.ok cResult, cTrace) ∧
    (ApiEvent.revokeObjectURL ∉ cTrace ∧
      ∀ m : AppModel, (handleNewVideo m).2 = [] ∧ (handleNewVideo m).1.videoUrl = none) :=
  ⟨rfl, objectURL_never_revoked cEnv 1 cParams (Except.ok cResult) cTrace rfl⟩

/-- C8: each scene record returned by a successful `parseScript` starts
idle with no video and id `scene-<index>`. -/
theorem parseScript_scene_initialization (raw : List RawScene)
    (scenes : List StoryboardScene) (h : parseScript (some raw) = Except.ok scenes)
    (i : Nat) (scene : StoryboardScene) (hi : scenes.get? i = some scene) :
    scene.status = SceneStatus.idle ∧ scene.videoUrl = none ∧
    scene.videoObject = none ∧ scene.id = "scene-" ++ toString i := by
  have h' : Except.ok (ε := String) (mapIdxFrom mkScene 0 raw) = Except.ok scenes := h
  injection h' with h''
  subst h''
  rw [mapIdxFrom_get?, Nat.zero_add] at hi
  obtain ⟨r, _, hr2⟩ := Option.map_eq_some'.mp hi
  subst hr2
  exact ⟨rfl, rfl, rfl, rfl⟩

/-- C8 witness: the second scene of a concrete parse. -/
theorem parseScript_scene_initialization_witness :
    parseScript (some cRaw) = Except.ok cScenes ∧
    cScenes.get? 1 = some cScene1 ∧
    (cScene1.status = SceneStatus.idle ∧ cScene1.videoUrl = none ∧
      cScene1.videoObject = none ∧ cScene1.id = "scene-" ++ toString 1) :=
  ⟨rfl, rfl, parseScript_scene_initialization cRaw cScenes rfl 1 cScene1 rfl⟩

/-- C9: in FRAMES_TO_VIDEO mode with `isLooping` and a start frame, the
payload's `lastFrame` is built from the start frame's bytes, and the
payload does not depend on any provided end frame. -/
theorem looping_lastFrame_from_startFrame (params : GenerateVideoParams)
    (f : ImageFile) (hm : params.mode = GenerationMode.FRAMES_TO_VIDEO)
    (hl : params.isLooping = true) (hs : params.startFrame = some f) :
    (∃ payload, buildPayload params = Except.ok payload ∧
      payload.config.lastFrame = some (framePayloadOf f)) ∧
    (∀ e, buildPayload { params with endFrame := e } = buildPayload params) := by
  obtain ⟨p0, m0, a0, r0, md, sf, ef, ri, iv, il⟩ := params
  obtain rfl : md = GenerationMode.FRAMES_TO_VIDEO := hm
  obtain rfl : il = true := hl
  obtain rfl : sf = some f := hs
  exact ⟨⟨_, rfl, rfl⟩, fun e => rfl⟩

/-- C9 witness: a concrete looping frames-to-video request whose end
frame differs from its start frame. -/
theorem looping_lastFrame_from_startFrame_witness :
    cFramesParams.mode = GenerationMode.FRAMES_TO_VIDEO ∧
    cFramesParams.isLooping = true ∧
    cFramesParams.startFrame = some cFrame ∧
    ((∃ payload, buildPayload cFramesParams = Except.ok payload ∧
        payload.config.lastFrame = some (framePayloadOf cFrame)) ∧
     (∀ e, buildPayload { cFramesParams with endFrame := e } = buildPayload cFramesParams)) :=
  ⟨rfl, rfl, rfl, looping_lastFrame_from_startFrame cFramesParams cFrame rfl rfl rfl⟩

/-- C10: in EXTEND_VIDEO mode with no input video object,
`generateVideo` fails with the fixed message and its trace is empty:
no job submission (nor any other remote request) is ever made. -/
theorem extend_without_video_throws_before_submit (env : RemoteEnv) (fuel : Nat)
    (params : GenerateVideoParams)
    (hm : params.mode = GenerationMode.EXTEND_VIDEO)
    (hv : params.inputVideoObject = none) :
    generateVideo env fuel params =
      some (Except.error "An input video object is required to extend a video.", []) ∧
    ∀ res tr, generateVideo env fuel params = some (res, tr) →
      ∀ q, ApiEvent.submit q ∉ tr := by
  obtain ⟨p0, m0, a0, r0, md, sf, ef, ri, iv, il⟩ := params
  obtain rfl : md = GenerationMode.EXTEND_VIDEO := hm
  obtain rfl : iv = (none : Option Video) := hv
  refine ⟨rfl, ?_⟩
  intro res tr h q
  have h0 : some ((Except.error "An input video object is required to extend a video."
      : Except String GenResult), ([] : List ApiEvent)) = some (res, tr) := h
  injection h0 with h1
  cases h1
  exact List.not_mem_nil _

/-- C10 witness: a concrete extend request without an input video. -/
theorem extend_without_video_throws_before_submit_witness :
    cExtendParams.mode = GenerationMode.EXTEND_VIDEO ∧
    cExtendParams.inputVideoObject = none ∧
    (generateVideo cEnv 1 cExtendParams =
      some (Except.error "An input video object is required to extend a video.", []) ∧
     ∀ res tr, generateVideo cEnv 1 cExtendParams = some (res, tr) →
       ∀ q, ApiEvent.submit q ∉ tr) :=
  ⟨rfl, rfl, extend_without_video_throws_before_submit cEnv 1 cExtendParams rfl rfl⟩

end VeoStudio
